import Mathlib

/-!
Verification of the arcin-infinitas configuration tool (src/main.py).

The development shallowly embeds the configuration-record codec of
src/main.py: the struct format STRUCT_FMT_EX (lines 39-59), the decode
path parse_device (lines 181-187), the encode-and-write path
save_to_device (lines 189-245), and the GUI translation functions
(extract conf / populate conf, lines 626-808), together with the
remap-default logic of the remapper window (lines 1094-1102).

Bytes are modelled as Nat, Python ints as Int.  The program targets
Windows/x86 (pywinusb), where struct native mode gives a 4-byte
little-endian "L" and inserts no alignment padding in this particular
format (the uint32 sits at offset 12, already 4-aligned); the byte
layout below reproduces exactly that 60-byte layout.  A Python
struct.error (and the resulting "(False, 'Format error')" return) is
modelled as Option.none from the pack/unpack functions.
-/

/-- One field code of a Python struct format string: ns (fixed bytes),
L (uint32), b (int8), B (uint8), and nx (pad bytes). -/
inductive FieldCode where
  | s (n : Nat)
  | L
  | b
  | B
  | x (n : Nat)
deriving DecidableEq

/-- A value passed to struct.pack / returned by struct.unpack: either a
bytes object or an int. -/
inductive PackVal where
  | bytes (bs : List Nat)
  | int (i : Int)
deriving DecidableEq

/-- Python "ns" packing: truncate to n bytes, null-pad up to n bytes. -/
def sPad (n : Nat) (bs : List Nat) : List Nat :=
  bs.take n ++ List.replicate (n - bs.length) 0

/-- Pack a single non-pad field, little-endian, with Python's range
checks: L needs 0 <= i < 2^32, b needs -128 <= i <= 127 (stored as a
two's-complement byte), B needs 0 <= i <= 255; an argument of the wrong
kind (int for s, bytes for a numeric code) is a struct.error. -/
def packField : FieldCode → PackVal → Option (List Nat)
  | FieldCode.s n, PackVal.bytes bs => some (sPad n bs)
  | FieldCode.L, PackVal.int i =>
      if 0 ≤ i ∧ i < 4294967296 then
        some [i.toNat % 256, i.toNat / 256 % 256, i.toNat / 65536 % 256,
              i.toNat / 16777216 % 256]
      else none
  | FieldCode.b, PackVal.int i =>
      if -128 ≤ i ∧ i ≤ 127 then some [(i.emod 256).toNat] else none
  | FieldCode.B, PackVal.int i =>
      if 0 ≤ i ∧ i ≤ 255 then some [i.toNat] else none
  | _, _ => none

/-- Byte width of a field code. -/
def fieldSize : FieldCode → Nat
  | FieldCode.s n => n
  | FieldCode.L => 4
  | FieldCode.b => 1
  | FieldCode.B => 1
  | FieldCode.x n => n

/-- struct.calcsize of a format. -/
def sizeFields (fs : List FieldCode) : Nat :=
  (fs.map fieldSize).sum

/-- Number of argument values a format consumes (pad bytes consume none);
struct.pack raises when given a different number of arguments. -/
def countVals : List FieldCode → Nat
  | [] => 0
  | FieldCode.x _ :: fs => countVals fs
  | _ :: fs => 1 + countVals fs

/-- struct.pack over a whole format: consumes exactly one value per
non-pad field, fails (struct.error) on an arity mismatch or any
out-of-range / wrongly-typed value. -/
def packFields : List FieldCode → List PackVal → Option (List Nat)
  | [], [] => some []
  | [], _ :: _ => none
  | FieldCode.x n :: fs, args =>
      (packFields fs args).map (fun rest => List.replicate n 0 ++ rest)
  | FieldCode.s _ :: _, [] => none
  | FieldCode.s n :: fs, a :: args =>
      (packField (FieldCode.s n) a).bind
        (fun bs => (packFields fs args).map (fun rest => bs ++ rest))
  | FieldCode.L :: _, [] => none
  | FieldCode.L :: fs, a :: args =>
      (packField FieldCode.L a).bind
        (fun bs => (packFields fs args).map (fun rest => bs ++ rest))
  | FieldCode.b :: _, [] => none
  | FieldCode.b :: fs, a :: args =>
      (packField FieldCode.b a).bind
        (fun bs => (packFields fs args).map (fun rest => bs ++ rest))
  | FieldCode.B :: _, [] => none
  | FieldCode.B :: fs, a :: args =>
      (packField FieldCode.B a).bind
        (fun bs => (packFields fs args).map (fun rest => bs ++ rest))

/-- struct.unpack over a whole format: requires the buffer to hold
exactly calcsize bytes, returns one value per non-pad field; b bytes are
read back as signed two's complement, L as 4-byte little-endian. -/
def unpackFields : List FieldCode → List Nat → Option (List PackVal)
  | [], [] => some []
  | [], _ :: _ => none
  | FieldCode.s n :: fs, bs =>
      if n ≤ bs.length then
        (unpackFields fs (bs.drop n)).map
          (fun vs => PackVal.bytes (bs.take n) :: vs)
      else none
  | FieldCode.L :: _, [] => none
  | FieldCode.L :: _, [_] => none
  | FieldCode.L :: _, [_, _] => none
  | FieldCode.L :: _, [_, _, _] => none
  | FieldCode.L :: fs, b0 :: b1 :: b2 :: b3 :: bs =>
      (unpackFields fs bs).map
        (fun vs =>
          PackVal.int ((b0 : Int) + 256 * b1 + 65536 * b2 + 16777216 * b3) :: vs)
  | FieldCode.b :: _, [] => none
  | FieldCode.b :: fs, b0 :: bs =>
      (unpackFields fs bs).map
        (fun vs =>
          PackVal.int (if b0 < 128 then (b0 : Int) else (b0 : Int) - 256) :: vs)
  | FieldCode.B :: _, [] => none
  | FieldCode.B :: fs, b0 :: bs =>
      (unpackFields fs bs).map (fun vs => PackVal.int (b0 : Int) :: vs)
  | FieldCode.x n :: fs, bs =>
      if n ≤ bs.length then unpackFields fs (bs.drop n) else none

/-- STRUCT_FMT_EX of src/main.py lines 39-59: 12s L b b x B 16s B B 2x
B BBB B BBB BBB B B b B 5x — 23 value fields, 60 bytes. -/
def STRUCT_FMT_EX : List FieldCode :=
  [FieldCode.s 12, FieldCode.L, FieldCode.b, FieldCode.b, FieldCode.x 1,
   FieldCode.B, FieldCode.s 16, FieldCode.B, FieldCode.B, FieldCode.x 2,
   FieldCode.B, FieldCode.B, FieldCode.B, FieldCode.B, FieldCode.B,
   FieldCode.B, FieldCode.B, FieldCode.B, FieldCode.B, FieldCode.B,
   FieldCode.B, FieldCode.B, FieldCode.B, FieldCode.b, FieldCode.B,
   FieldCode.x 5]

example : sizeFields STRUCT_FMT_EX = 60 := by decide
example : countVals STRUCT_FMT_EX = 23 := by decide

/-- The ArcinConfig namedtuple of src/main.py lines 12-23.  The label is
modelled as its encoded bytes (the GUI holds a str; save_to_device
applies .encode() before packing, parse_device returns the raw 12-byte
field). -/
structure ArcinConfig where
  label : List Nat
  flags : Int
  qe1_sens : Int
  qe2_sens : Int
  debounce_ticks : Int
  keycodes : List Nat
  remap_start_sel : Int
  remap_b8_b9 : Int
  rgb_flags : Int
  rgb_red : Int
  rgb_green : Int
  rgb_blue : Int
  rgb_darkness : Int
  rgb_red_2 : Int
  rgb_green_2 : Int
  rgb_blue_2 : Int
  rgb_red_3 : Int
  rgb_green_3 : Int
  rgb_blue_3 : Int
  rgb_mode : Int
  rgb_num_leds : Int
  rgb_speed : Int
  rgb_idle_brightness : Int
deriving DecidableEq

/-- The argument list save_to_device actually hands to struct.pack
(src/main.py lines 191-215): 22 values — the rgb_idle_brightness field
of STRUCT_FMT_EX is never passed. -/
def pack_args_save (c : ArcinConfig) : List PackVal :=
  [PackVal.bytes (c.label.take 12), PackVal.int c.flags,
   PackVal.int c.qe1_sens, PackVal.int c.qe2_sens,
   PackVal.int c.debounce_ticks, PackVal.bytes (c.keycodes.take 16),
   PackVal.int c.remap_start_sel, PackVal.int c.remap_b8_b9,
   PackVal.int c.rgb_flags, PackVal.int c.rgb_red, PackVal.int c.rgb_green,
   PackVal.int c.rgb_blue, PackVal.int c.rgb_darkness,
   PackVal.int c.rgb_red_2, PackVal.int c.rgb_green_2,
   PackVal.int c.rgb_blue_2, PackVal.int c.rgb_red_3,
   PackVal.int c.rgb_green_3, PackVal.int c.rgb_blue_3,
   PackVal.int c.rgb_mode, PackVal.int c.rgb_num_leds,
   PackVal.int c.rgb_speed]

/-- The tail of the full 23-value argument list of STRUCT_FMT_EX (all
fields after the label, in the order the format declares them,
including the rgb_idle_brightness value that save_to_device omits). -/
def pack_args_tail (c : ArcinConfig) : List PackVal :=
  [PackVal.int c.flags, PackVal.int c.qe1_sens, PackVal.int c.qe2_sens,
   PackVal.int c.debounce_ticks, PackVal.bytes (c.keycodes.take 16),
   PackVal.int c.remap_start_sel, PackVal.int c.remap_b8_b9,
   PackVal.int c.rgb_flags, PackVal.int c.rgb_red, PackVal.int c.rgb_green,
   PackVal.int c.rgb_blue, PackVal.int c.rgb_darkness,
   PackVal.int c.rgb_red_2, PackVal.int c.rgb_green_2,
   PackVal.int c.rgb_blue_2, PackVal.int c.rgb_red_3,
   PackVal.int c.rgb_green_3, PackVal.int c.rgb_blue_3,
   PackVal.int c.rgb_mode, PackVal.int c.rgb_num_leds,
   PackVal.int c.rgb_speed, PackVal.int c.rgb_idle_brightness]

/-- The full 23-value argument list of STRUCT_FMT_EX: the list
save_to_device builds (lines 193-214) followed by the
rgb_idle_brightness value that the format declares at offset 54 but
that the source forgets to pass.  This is the encode STRUCT_FMT_EX
itself defines, used to exercise the codec; the program's own call is
pack_args_save. -/
def pack_args_full (c : ArcinConfig) : List PackVal :=
  PackVal.bytes (c.label.take 12) :: pack_args_tail c

/-- The tail of STRUCT_FMT_EX after the leading 12s label field. -/
def STRUCT_FMT_EX_TAIL : List FieldCode :=
  [FieldCode.L, FieldCode.b, FieldCode.b, FieldCode.x 1,
   FieldCode.B, FieldCode.s 16, FieldCode.B, FieldCode.B, FieldCode.x 2,
   FieldCode.B, FieldCode.B, FieldCode.B, FieldCode.B, FieldCode.B,
   FieldCode.B, FieldCode.B, FieldCode.B, FieldCode.B, FieldCode.B,
   FieldCode.B, FieldCode.B, FieldCode.B, FieldCode.b, FieldCode.B,
   FieldCode.x 5]

example : STRUCT_FMT_EX = FieldCode.s 12 :: STRUCT_FMT_EX_TAIL := rfl

/-- The codec's full encode: struct.pack(STRUCT_FMT_EX, ...) with the
complete 23-field argument list. -/
def encode_full (c : ArcinConfig) : Option (List Nat) :=
  packFields STRUCT_FMT_EX (pack_args_full c)

/-- Rebuild an ArcinConfig from the 23 unpacked values, in record order
(ArcinConfig._make in parse_device). -/
def configOfVals : List PackVal → Option ArcinConfig
  | [PackVal.bytes label, PackVal.int flags, PackVal.int q1, PackVal.int q2,
     PackVal.int dt, PackVal.bytes kc, PackVal.int rss, PackVal.int rbb,
     PackVal.int rf, PackVal.int r1, PackVal.int g1, PackVal.int b1,
     PackVal.int dk, PackVal.int r2, PackVal.int g2, PackVal.int b2,
     PackVal.int r3, PackVal.int g3, PackVal.int b3, PackVal.int md,
     PackVal.int nl, PackVal.int sp, PackVal.int idle] =>
      some ⟨label, flags, q1, q2, dt, kc, rss, rbb, rf, r1, g1, b1, dk,
            r2, g2, b2, r3, g3, b3, md, nl, sp, idle⟩
  | _ => none

/-- parse_device (src/main.py lines 181-187): truncate the raw report
bytes to struct.calcsize(STRUCT_FMT_EX) and unpack; a buffer shorter
than that makes struct.unpack raise, modelled as none. -/
def parse_device (data : List Nat) : Option ArcinConfig :=
  (unpackFields STRUCT_FMT_EX (data.take (sizeFields STRUCT_FMT_EX))).bind
    configOfVals

/-- The 64-byte feature report save_to_device assembles (lines 221-229):
[0x00]*64, then byte0 = 0xc0 (report id), byte1 = 0x00 (segment),
byte2 = 0x3C (size), byte3 = 0x00 (padding), then
feature[4:4+len(packed)] = packed (Python slice assignment). -/
def buildFeature (packed : List Nat) : List Nat :=
  [0xc0, 0x00, 0x3C, 0x00] ++ packed ++
    List.replicate (64 - (4 + packed.length)) 0

/-- What save_to_device did to the device: whether it opened it and
which feature reports it sent. -/
structure DeviceLog where
  opened : Bool
  reports : List (List Nat)
deriving DecidableEq

/-- save_to_device (src/main.py lines 189-245).  devOk abstracts the
open/send calls succeeding.  If struct.pack raises, the function
returns (False, "Format error") before touching the device; otherwise
it opens the device, sends the 64-byte config report and the 2-byte
restart report [0xb0, 0x20], and returns (True, "Success"). -/
def save_to_device (devOk : Bool) (c : ArcinConfig) :
    (Bool × String) × DeviceLog :=
  match packFields STRUCT_FMT_EX (pack_args_save c) with
  | none => ((false, "Format error"), ⟨false, []⟩)
  | some packed =>
      if devOk then
        ((true, "Success"), ⟨true, [buildFeature packed, [0xb0, 0x20]]⟩)
      else
        ((false, "Failed to write to device"), ⟨true, []⟩)

/-- The all-zero configuration: 12-byte null label, 16-byte zero
keycode table, every numeric field 0.  All fields are inside the valid
ranges of the data model. -/
def confZ : ArcinConfig :=
  ⟨List.replicate 12 0, 0, 0, 0, 0, List.replicate 16 0, 0, 0, 0, 0, 0,
   0, 0, 0, 0, 0, 0, 0, 0, 0, 0, 0, 0⟩

example : encode_full confZ = some (List.replicate 60 0) := by decide
example : parse_device (List.replicate 60 0) = some confZ := by decide

/-! GUI-side constants and translation functions (src/main.py). -/

def ARCIN_CONFIG_VALID_KEYCODES : Nat := 13
def ARCIN_RGB_NUM_LEDS_MAX : Nat := 60

def ARCIN_CONFIG_FLAG_SEL_MULTI_TAP : Nat := 1 <<< 0
def ARCIN_CONFIG_FLAG_INVERT_QE1 : Nat := 1 <<< 1
def ARCIN_CONFIG_FLAG_DIGITAL_TT_ENABLE : Nat := 1 <<< 3
def ARCIN_CONFIG_FLAG_DEBOUNCE : Nat := 1 <<< 4
def ARCIN_CONFIG_FLAG_250HZ_MODE : Nat := 1 <<< 5
def ARCIN_CONFIG_FLAG_ANALOG_TT_FORCE_ENABLE : Nat := 1 <<< 6
def ARCIN_CONFIG_FLAG_KEYBOARD_ENABLE : Nat := 1 <<< 7
def ARCIN_CONFIG_FLAG_JOYINPUT_DISABLE : Nat := 1 <<< 8
def ARCIN_CONFIG_FLAG_MODE_SWITCHING_ENABLE : Nat := 1 <<< 9
def ARCIN_CONFIG_FLAG_LED_OFF : Nat := 1 <<< 10
def ARCIN_CONFIG_FLAG_TT_LED_REACTIVE : Nat := 1 <<< 11
def ARCIN_CONFIG_FLAG_TT_LED_HID : Nat := 1 <<< 12
def ARCIN_CONFIG_FLAG_WS2812B : Nat := 1 <<< 13

/-- All flag constants defined in src/main.py lines 128-142 (13 of
them: bit 2, the former SWAP_8_9, was removed from the source). -/
def ARCIN_FLAGS : List Nat :=
  [ARCIN_CONFIG_FLAG_SEL_MULTI_TAP, ARCIN_CONFIG_FLAG_INVERT_QE1,
   ARCIN_CONFIG_FLAG_DIGITAL_TT_ENABLE, ARCIN_CONFIG_FLAG_DEBOUNCE,
   ARCIN_CONFIG_FLAG_250HZ_MODE, ARCIN_CONFIG_FLAG_ANALOG_TT_FORCE_ENABLE,
   ARCIN_CONFIG_FLAG_KEYBOARD_ENABLE, ARCIN_CONFIG_FLAG_JOYINPUT_DISABLE,
   ARCIN_CONFIG_FLAG_MODE_SWITCHING_ENABLE, ARCIN_CONFIG_FLAG_LED_OFF,
   ARCIN_CONFIG_FLAG_TT_LED_REACTIVE, ARCIN_CONFIG_FLAG_TT_LED_HID,
   ARCIN_CONFIG_FLAG_WS2812B]

/-- SENS_OPTIONS of src/main.py lines 67-83, in insertion order. -/
def SENS_OPTIONS : List (String × Int) :=
  [("1:1", 0), ("1:2", -2), ("1:3", -3), ("1:4", -4), ("1:6", -6),
   ("1:8", -8), ("1:11", -11), ("1:16", -16), ("2:1", 2), ("3:1", 3),
   ("4:1", 4), ("6:1", 6), ("8:1", 8), ("11:1", 11), ("16:1", 16)]

/-- The sensitivity values, in the order SENS_OPTIONS.values() yields
them. -/
def SENS_VALUES : List Int := SENS_OPTIONS.map Prod.snd

/-- The sensitivity labels, in the order SENS_OPTIONS.keys() yields
them. -/
def SENS_KEYS : List String := SENS_OPTIONS.map Prod.fst

def DEFAULT_EFFECTOR_MAPPING : List Int := [1, 2, 3, 4]

structure Rgb where
  r : Int
  g : Int
  b : Int
deriving DecidableEq

/-- The RgbConfig namedtuple of src/main.py lines 27-28.  Note its last
field is named idle_brightness; there is no rgb_idle_brightness
attribute. -/
structure RgbConfig where
  flags : Int
  rgb1 : Rgb
  darkness : Int
  rgb2 : Rgb
  rgb3 : Rgb
  mode : Int
  num_leds : Int
  speed : Int
  idle_brightness : Int
deriving DecidableEq

/-- The state of the main window's controls that
MainWindowFrame.__extract_conf_from_gui__ reads.  Selections are Int
(wx GetSelection returns -1 when nothing is selected); the label is its
encoded bytes; keycodes and rgb_config are None until the corresponding
sub-window has been used. -/
structure GuiState where
  title : List Nat
  multitap_checked : Bool
  qe1_invert_checked : Bool
  debounce_checked : Bool
  mode_switch_checked : Bool
  led_off_checked : Bool
  ws2812b_checked : Bool
  poll_rate_selection : Int
  qe1_tt_selection : Int
  input_mode_selection : Int
  led_mode_selection : Int
  debounce_ctrl_value : Int
  qe1_sens_value : String
  keycodes : Option (List Nat)
  remap : List Nat
  rgb_config : Option RgbConfig
deriving DecidableEq

/-- MainWindowFrame.__extract_conf_from_gui__ (src/main.py lines
626-728).  When rgb_config is set, line 700 reads
self.rgb_config.rgb_idle_brightness, an attribute RgbConfig does not
have, so the call raises AttributeError (modelled as none) instead of
returning a configuration. -/
def extract_conf (g : GuiState) : Option ArcinConfig :=
  let flags : Nat :=
    (if g.multitap_checked then ARCIN_CONFIG_FLAG_SEL_MULTI_TAP else 0) |||
    (if g.qe1_invert_checked then ARCIN_CONFIG_FLAG_INVERT_QE1 else 0) |||
    (if g.debounce_checked then ARCIN_CONFIG_FLAG_DEBOUNCE else 0) |||
    (if g.mode_switch_checked then ARCIN_CONFIG_FLAG_MODE_SWITCHING_ENABLE
     else 0) |||
    (if g.led_off_checked then ARCIN_CONFIG_FLAG_LED_OFF else 0) |||
    (if g.ws2812b_checked then ARCIN_CONFIG_FLAG_WS2812B else 0) |||
    (if g.poll_rate_selection = 1 then ARCIN_CONFIG_FLAG_250HZ_MODE else 0) |||
    (if g.qe1_tt_selection = 1 then ARCIN_CONFIG_FLAG_DIGITAL_TT_ENABLE
     else if g.qe1_tt_selection = 2 then
       ARCIN_CONFIG_FLAG_DIGITAL_TT_ENABLE |||
       ARCIN_CONFIG_FLAG_ANALOG_TT_FORCE_ENABLE
     else 0) |||
    (if g.input_mode_selection = 1 then
       ARCIN_CONFIG_FLAG_KEYBOARD_ENABLE ||| ARCIN_CONFIG_FLAG_JOYINPUT_DISABLE
     else if g.input_mode_selection = 2 then ARCIN_CONFIG_FLAG_KEYBOARD_ENABLE
     else 0) |||
    (if g.led_mode_selection = 1 then ARCIN_CONFIG_FLAG_TT_LED_REACTIVE
     else if g.led_mode_selection = 2 then ARCIN_CONFIG_FLAG_TT_LED_HID
     else 0)
  let debounce_ticks : Int :=
    if 2 ≤ g.debounce_ctrl_value ∧ g.debounce_ctrl_value ≤ 10 then
      g.debounce_ctrl_value
    else 2
  let qe1_sens : Int :=
    match List.lookup g.qe1_sens_value SENS_OPTIONS with
    | some v => v
    | none => -4
  let keycodes : List Nat :=
    match g.keycodes with
    | some (k :: ks) => k :: ks
    | _ => List.replicate ARCIN_CONFIG_VALID_KEYCODES 0
  let remap_start_sel : Nat := (g.remap.getD 0 0 <<< 4) ||| g.remap.getD 1 0
  let remap_b8_b9 : Nat := (g.remap.getD 2 0 <<< 4) ||| g.remap.getD 3 0
  match g.rgb_config with
  | some _ => none
  | none =>
      some ⟨g.title, (flags : Int), qe1_sens, 0, debounce_ticks, keycodes,
            (remap_start_sel : Int), (remap_b8_b9 : Int), 0, 0, 0, 0, 0,
            0, 0, 0, 0, 0, 0, 0, (ARCIN_RGB_NUM_LEDS_MAX : Int), 0, 0⟩

/-- Python truthiness test flags and MASK (src/main.py lines 734-778). -/
def flagSet (flags : Int) (mask : Nat) : Bool :=
  Int.land flags (Int.ofNat mask) != 0

/-- The sensitivity selection index __populate_from_conf__ computes
(src/main.py lines 782-787): the first index of SENS_OPTIONS.values()
equal to qe1_sens, defaulting to -4 — the literal -4, which is the
sens VALUE of the "1:4" choice, not its index (3). -/
def sensDisplayIndex (q : Int) : Int :=
  match SENS_VALUES.findIdx? (fun v => v == q) with
  | some i => (i : Int)
  | none => -4

/-- The state of the main window controls after
MainWindowFrame.__populate_from_conf__ runs. -/
structure MainUiState where
  title : List Nat
  multitap : Bool
  qe1_invert : Bool
  debounce : Bool
  mode_switch : Bool
  led_off : Bool
  ws2812b : Bool
  poll_rate_sel : Nat
  qe1_tt_sel : Nat
  input_mode_sel : Nat
  led_mode_sel : Nat
  debounce_value : Int
  qe1_sens_index : Int
  keycodes : List Nat
  remap : List Int
  rgb : RgbConfig
deriving DecidableEq

/-- MainWindowFrame.__populate_from_conf__ (src/main.py lines 730-808).
Remap nibbles are extracted as (x >> 4) & 0xF and x & 0xF; x >> 4 on a
Python int is floor division by 16, Int.fdiv here. -/
def populate_from_conf (c : ArcinConfig) : MainUiState :=
  { title := c.label
    multitap := flagSet c.flags ARCIN_CONFIG_FLAG_SEL_MULTI_TAP
    qe1_invert := flagSet c.flags ARCIN_CONFIG_FLAG_INVERT_QE1
    debounce := flagSet c.flags ARCIN_CONFIG_FLAG_DEBOUNCE
    mode_switch := flagSet c.flags ARCIN_CONFIG_FLAG_MODE_SWITCHING_ENABLE
    led_off := flagSet c.flags ARCIN_CONFIG_FLAG_LED_OFF
    ws2812b := flagSet c.flags ARCIN_CONFIG_FLAG_WS2812B
    poll_rate_sel := if flagSet c.flags ARCIN_CONFIG_FLAG_250HZ_MODE then 1
      else 0
    qe1_tt_sel :=
      if flagSet c.flags ARCIN_CONFIG_FLAG_DIGITAL_TT_ENABLE ∧
         flagSet c.flags ARCIN_CONFIG_FLAG_ANALOG_TT_FORCE_ENABLE then 2
      else if flagSet c.flags ARCIN_CONFIG_FLAG_DIGITAL_TT_ENABLE then 1
      else 0
    input_mode_sel :=
      if flagSet c.flags ARCIN_CONFIG_FLAG_KEYBOARD_ENABLE ∧
         flagSet c.flags ARCIN_CONFIG_FLAG_JOYINPUT_DISABLE then 1
      else if flagSet c.flags ARCIN_CONFIG_FLAG_KEYBOARD_ENABLE then 2
      else 0
    led_mode_sel :=
      if flagSet c.flags ARCIN_CONFIG_FLAG_TT_LED_REACTIVE then 1
      else if flagSet c.flags ARCIN_CONFIG_FLAG_TT_LED_HID then 2
      else 0
    debounce_value := c.debounce_ticks
    qe1_sens_index := sensDisplayIndex c.qe1_sens
    keycodes := c.keycodes
    remap := [Int.land (Int.fdiv c.remap_start_sel 16) 15,
              Int.land c.remap_start_sel 15,
              Int.land (Int.fdiv c.remap_b8_b9 16) 15,
              Int.land c.remap_b8_b9 15]
    rgb := ⟨c.rgb_flags, ⟨c.rgb_red, c.rgb_green, c.rgb_blue⟩,
            c.rgb_darkness, ⟨c.rgb_red_2, c.rgb_green_2, c.rgb_blue_2⟩,
            ⟨c.rgb_red_3, c.rgb_green_3, c.rgb_blue_3⟩, c.rgb_mode,
            c.rgb_num_leds, c.rgb_speed, c.rgb_idle_brightness⟩ }

/-- RemapperWindowFrame.populate_ui_from_remap (src/main.py lines
1094-1102): each slot equal to 0 is replaced by
DEFAULT_EFFECTOR_MAPPING[i], then slot i is displayed as effector
number remap[i] (the Select call receives remap[i] - 1).  Returns the
per-slot effector numbers shown. -/
def populate_ui_from_remap (remap : List Int) : List Int :=
  (List.range remap.length).map (fun i =>
    let v := remap.getD i 0
    if v = 0 then DEFAULT_EFFECTOR_MAPPING.getD i 0 else v)

example : populate_ui_from_remap [0, 0, 0, 0] = [1, 2, 3, 4] := by decide
example : sensDisplayIndex 5 = -4 := by decide
example : sensDisplayIndex (-4) = 3 := by decide

/-! Helper lemmas about the struct pack/unpack embedding. -/

theorem sPad_length (n : Nat) (bs : List Nat) : (sPad n bs).length = n := by
  simp only [sPad, List.length_append, List.length_take, List.length_replicate]
  omega

theorem sizeFields_cons (f : FieldCode) (fs : List FieldCode) :
    sizeFields (f :: fs) = fieldSize f + sizeFields fs := by
  simp [sizeFields]

theorem packField_length (f : FieldCode) (v : PackVal) (bs : List Nat)
    (h : packField f v = some bs) : bs.length = fieldSize f := by
  cases f <;> cases v <;> simp only [packField] at h
  all_goals try exact Option.noConfusion h
  case s.bytes n bs0 =>
    cases h
    simp [fieldSize, sPad_length]
  case L.int i =>
    split at h
    · cases h; simp [fieldSize]
    · cases h
  case b.int i =>
    split at h
    · cases h; simp [fieldSize]
    · cases h
  case B.int i =>
    split at h
    · cases h; simp [fieldSize]
    · cases h

theorem packFields_count (fs : List FieldCode) (args : List PackVal)
    (bs : List Nat) (h : packFields fs args = some bs) :
    countVals fs = args.length := by
  induction fs generalizing args bs with
  | nil =>
    cases args with
    | nil => rfl
    | cons a as => simp [packFields] at h
  | cons f fs ih =>
    cases f
    case x n =>
      simp only [packFields] at h
      rcases hrec : packFields fs args with _ | rest
      · rw [hrec] at h; simp at h
      · simpa [countVals] using ih args rest hrec
    all_goals
      cases args with
      | nil => simp [packFields] at h
      | cons a as =>
        simp only [packFields] at h
        rcases hrec : packFields fs as with _ | rest
        · rw [hrec] at h; simp at h
        · have := ih as rest hrec
          simp only [countVals, this, List.length_cons]
          omega

theorem packFields_none_of_arity (fs : List FieldCode) (args : List PackVal)
    (h : countVals fs ≠ args.length) : packFields fs args = none := by
  rcases hp : packFields fs args with _ | bs
  · rfl
  · exact absurd (packFields_count fs args bs hp) h

theorem packFields_length (fs : List FieldCode) (args : List PackVal)
    (bs : List Nat) (h : packFields fs args = some bs) :
    bs.length = sizeFields fs := by
  induction fs generalizing args bs with
  | nil =>
    cases args with
    | nil => cases h; rfl
    | cons a as => simp [packFields] at h
  | cons f fs ih =>
    cases f
    case x n =>
      simp only [packFields] at h
      rcases hrec : packFields fs args with _ | rest
      · rw [hrec] at h; simp at h
      · rw [hrec] at h
        cases h
        have := ih args rest hrec
        simp only [sizeFields_cons, fieldSize, List.length_append,
          List.length_replicate, this]
    all_goals
      cases args with
      | nil => simp [packFields] at h
      | cons a as =>
        simp only [packFields] at h
        rcases hpf : packField _ a with _ | bs1
        · rw [hpf] at h; simp at h
        · rcases hrec : packFields fs as with _ | rest
          · rw [hpf, hrec] at h; simp at h
          · rw [hpf, hrec] at h
            cases h
            have h1 := packField_length _ _ _ hpf
            have h2 := ih as rest hrec
            simp only [sizeFields_cons, List.length_append, h1, h2]

theorem unpackFields_length (fs : List FieldCode) (bs : List Nat)
    (vs : List PackVal) (h : unpackFields fs bs = some vs) :
    bs.length = sizeFields fs := by
  induction fs generalizing bs vs with
  | nil =>
    cases bs with
    | nil => rfl
    | cons b bs => simp [unpackFields] at h
  | cons f fs ih =>
    cases f
    case s n =>
      simp only [unpackFields] at h
      split at h
      · rcases hrec : unpackFields fs (bs.drop n) with _ | rest
        · rw [hrec] at h; simp at h
        · have := ih _ _ hrec
          simp only [List.length_drop] at this
          simp only [sizeFields_cons, fieldSize]
          omega
      · cases h
    case L =>
      match bs with
      | [] => simp [unpackFields] at h
      | [_] => simp [unpackFields] at h
      | [_, _] => simp [unpackFields] at h
      | [_, _, _] => simp [unpackFields] at h
      | b0 :: b1 :: b2 :: b3 :: bs =>
        simp only [unpackFields] at h
        rcases hrec : unpackFields fs bs with _ | rest
        · rw [hrec] at h; simp at h
        · have := ih _ _ hrec
          simp only [sizeFields_cons, fieldSize, List.length_cons, this]
          omega
    case b =>
      cases bs with
      | nil => simp [unpackFields] at h
      | cons b0 bs =>
        simp only [unpackFields] at h
        rcases hrec : unpackFields fs bs with _ | rest
        · rw [hrec] at h; simp at h
        · have := ih _ _ hrec
          simp only [sizeFields_cons, fieldSize, List.length_cons, this]
          omega
    case B =>
      cases bs with
      | nil => simp [unpackFields] at h
      | cons b0 bs =>
        simp only [unpackFields] at h
        rcases hrec : unpackFields fs bs with _ | rest
        · rw [hrec] at h; simp at h
        · have := ih _ _ hrec
          simp only [sizeFields_cons, fieldSize, List.length_cons, this]
          omega
    case x n =>
      simp only [unpackFields] at h
      split at h
      · have := ih _ _ h
        simp only [List.length_drop] at this
        simp only [sizeFields_cons, fieldSize]
        omega
      · cases h

theorem packFields_cons_s (n : Nat) (fs : List FieldCode) (bs : List Nat)
    (args : List PackVal) :
    packFields (FieldCode.s n :: fs) (PackVal.bytes bs :: args) =
      (packFields fs args).map (fun rest => sPad n bs ++ rest) := by
  simp only [packFields, packField, Option.some_bind]

theorem unpackFields_cons_s_exact (n : Nat) (fs : List FieldCode)
    (pre rest : List Nat) (hpre : pre.length = n) :
    unpackFields (FieldCode.s n :: fs) (pre ++ rest) =
      (unpackFields fs rest).map (fun vs => PackVal.bytes pre :: vs) := by
  subst hpre
  simp only [unpackFields, List.length_append, Nat.le_add_right, if_pos,
    List.take_left, List.drop_left]

/-- save_to_device fails with "Format error" on every configuration:
its struct.pack call supplies 22 values to the 23-field STRUCT_FMT_EX. -/
theorem save_always_format_error (devOk : Bool) (c : ArcinConfig) :
    save_to_device devOk c = ((false, "Format error"), ⟨false, []⟩) := by
  have harity : packFields STRUCT_FMT_EX (pack_args_save c) = none := by
    apply packFields_none_of_arity
    have h22 : (pack_args_save c).length = 22 := rfl
    rw [h22]
    decide
  unfold save_to_device
  rw [harity]

/-! The claims. -/

/-- C2: the encode step of save_to_device supplies 22 field values to
STRUCT_FMT_EX, which declares 23 (rgb_idle_brightness is never passed
to struct.pack), so for every configuration and every device the call
returns (False, "Format error") without opening the device or writing
any feature report. -/
theorem save_pack_arity_mismatch_always_format_error :
    countVals STRUCT_FMT_EX = 23 ∧
    (∀ c : ArcinConfig, (pack_args_save c).length = 22) ∧
    ∀ (devOk : Bool) (c : ArcinConfig),
      save_to_device devOk c = ((false, "Format error"), ⟨false, []⟩) :=
  ⟨by decide, fun _ => rfl, fun devOk c => save_always_format_error devOk c⟩

/-- C1: the claimed encode-then-decode round trip never happens in the
code: at the valid all-zero configuration confZ, save_to_device returns
(False, "Format error") instead of encoding, even though the 23-field
codec that STRUCT_FMT_EX itself defines does round-trip confZ. -/
theorem save_roundtrip_broken_by_missing_pack_argument :
    save_to_device true confZ = ((false, "Format error"), ⟨false, []⟩) ∧
    parse_device ((encode_full confZ).getD []) = some confZ :=
  ⟨save_always_format_error true confZ, by decide⟩

/-- C3: for every configuration whose remap bytes were assembled from a
nibble of 16 or more (lines 679-680) or whose rgb_num_leds exceeds 60,
save_to_device rejects with (False, "Format error") rather than
silently wrapping.  (It does so degenerately: the pack call fails for
every configuration, see C2.) -/
theorem save_rejects_out_of_range_remap_and_leds
    (devOk : Bool) (c : ArcinConfig) (r0 r1 r2 r3 : Nat)
    (h : (c.remap_start_sel = (((r0 <<< 4) ||| r1 : Nat) : Int) ∧
          c.remap_b8_b9 = (((r2 <<< 4) ||| r3 : Nat) : Int) ∧
          (16 ≤ r0 ∨ 16 ≤ r1 ∨ 16 ≤ r2 ∨ 16 ≤ r3)) ∨
         60 < c.rgb_num_leds) :
    (save_to_device devOk c).1 = (false, "Format error") := by
  rw [save_always_format_error]

theorem save_rejects_out_of_range_remap_and_leds_witness :
    ((({ confZ with remap_start_sel := 16 } : ArcinConfig).remap_start_sel =
        (((0 <<< 4) ||| 16 : Nat) : Int) ∧
      ({ confZ with remap_start_sel := 16 } : ArcinConfig).remap_b8_b9 =
        (((0 <<< 4) ||| 0 : Nat) : Int) ∧
      (16 ≤ (0 : Nat) ∨ 16 ≤ (16 : Nat) ∨ 16 ≤ (0 : Nat) ∨ 16 ≤ (0 : Nat))) ∨
     60 < ({ confZ with remap_start_sel := 16 } : ArcinConfig).rgb_num_leds) ∧
    (save_to_device true { confZ with remap_start_sel := 16 }).1 =
      (false, "Format error") :=
  ⟨Or.inl ⟨by decide, by decide, by decide⟩,
   save_rejects_out_of_range_remap_and_leds true _ 0 16 0 0
     (Or.inl ⟨by decide, by decide, by decide⟩)⟩

/-- C4: decoding any buffer shorter than the 60 bytes
struct.calcsize(STRUCT_FMT_EX) expects fails (struct.error in
parse_device, surfaced as None by load_from_device) instead of
returning a configuration. -/
theorem parse_device_short_buffer_fails (data : List Nat)
    (h : data.length < 60) : parse_device data = none := by
  have hsz : sizeFields STRUCT_FMT_EX = 60 := by decide
  rcases hu : unpackFields STRUCT_FMT_EX
      (data.take (sizeFields STRUCT_FMT_EX)) with _ | vs
  · simp [parse_device, hu]
  · exfalso
    have hlen := unpackFields_length _ _ _ hu
    rw [List.length_take] at hlen
    omega

theorem parse_device_short_buffer_fails_witness :
    (List.replicate 10 0 : List Nat).length < 60 ∧
    parse_device (List.replicate 10 0) = none :=
  ⟨by decide, parse_device_short_buffer_fails _ (by decide)⟩

/-- C5: whenever struct.pack over STRUCT_FMT_EX succeeds the buffer has
exactly 60 bytes; but the pack call inside save_to_device itself never
succeeds (it supplies 22 of 23 fields), so the program's encode never
produces that buffer. -/
theorem packed_buffer_is_sixty_but_save_never_packs
    (args : List PackVal) (bs : List Nat)
    (h : packFields STRUCT_FMT_EX args = some bs) :
    bs.length = 60 ∧
    packFields STRUCT_FMT_EX (pack_args_save confZ) = none := by
  constructor
  · have hl := packFields_length _ _ _ h
    rw [hl]; decide
  · apply packFields_none_of_arity
    have h22 : (pack_args_save confZ).length = 22 := rfl
    rw [h22]; decide

theorem packed_buffer_is_sixty_but_save_never_packs_witness :
    packFields STRUCT_FMT_EX (pack_args_full confZ) =
      some (List.replicate 60 0) ∧
    ((List.replicate 60 0 : List Nat).length = 60 ∧
     packFields STRUCT_FMT_EX (pack_args_save confZ) = none) :=
  ⟨by decide,
   packed_buffer_is_sixty_but_save_never_packs (pack_args_full confZ)
     (List.replicate 60 0) (by decide)⟩

/-- C10: the feature report save_to_device assembles from any
successfully packed payload is exactly 64 bytes: report id 0xc0,
segment 0, size byte 0x3C (= the payload length), a padding byte, then
the 60-byte payload, leaving no trailing bytes. -/
theorem feature_report_layout (args : List PackVal) (p : List Nat)
    (h : packFields STRUCT_FMT_EX args = some p) :
    p.length = 0x3C ∧
    buildFeature p = [0xc0, 0x00, 0x3C, 0x00] ++ p ∧
    (buildFeature p).length = 64 := by
  have hl : p.length = 60 := by
    have := packFields_length _ _ _ h
    rw [this]; decide
  refine ⟨hl, ?_, ?_⟩
  · simp [buildFeature, hl]
  · simp [buildFeature, hl]

theorem feature_report_layout_witness :
    packFields STRUCT_FMT_EX (pack_args_full confZ) =
      some (List.replicate 60 0) ∧
    ((List.replicate 60 0 : List Nat).length = 0x3C ∧
     buildFeature (List.replicate 60 0) =
       [0xc0, 0x00, 0x3C, 0x00] ++ List.replicate 60 0 ∧
     (buildFeature (List.replicate 60 0)).length = 64) :=
  ⟨by decide, feature_report_layout (pack_args_full confZ)
    (List.replicate 60 0) (by decide)⟩

/-- The values the 25 fields after the label unpack to on the all-zero
tail (used to evaluate the codec with a symbolic label). -/
def unpackedTailZ : List PackVal :=
  [PackVal.int 0, PackVal.int 0, PackVal.int 0, PackVal.int 0,
   PackVal.bytes (List.replicate 16 0), PackVal.int 0, PackVal.int 0,
   PackVal.int 0, PackVal.int 0, PackVal.int 0, PackVal.int 0,
   PackVal.int 0, PackVal.int 0, PackVal.int 0, PackVal.int 0,
   PackVal.int 0, PackVal.int 0, PackVal.int 0, PackVal.int 0,
   PackVal.int 0, PackVal.int 0, PackVal.int 0]

/-- C6 counterexample: the claim says a long label decodes to its first
11 characters; in fact a 12-character label (12 bytes 0x41) round-trips
to all 12 of its characters, which differs from its first 11. -/
theorem label_truncation_counterexample :
    (parse_device ((encode_full
        { confZ with label := List.replicate 12 65 }).getD [])).map
      ArcinConfig.label = some (List.replicate 12 65) ∧
    (List.replicate 12 65 : List Nat) ≠ (List.replicate 12 65).take 11 := by
  decide

/-- C6 amended: encoding then decoding a label longer than 11
characters yields its first TWELVE characters, not 11: the label is
truncated by the [0:12] slice (line 193) and the 12s field, and a null
terminator exists only when the label is shorter than 12 bytes. -/
theorem label_roundtrip_truncates_to_twelve (lbl : List Nat)
    (h : 11 < lbl.length) :
    (parse_device ((encode_full { confZ with label := lbl }).getD [])).map
      ArcinConfig.label = some (lbl.take 12) := by
  have h1 : encode_full { confZ with label := lbl } =
      packFields (FieldCode.s 12 :: STRUCT_FMT_EX_TAIL)
        (PackVal.bytes (lbl.take 12) ::
          pack_args_tail { confZ with label := lbl }) := rfl
  have h2 : packFields STRUCT_FMT_EX_TAIL
      (pack_args_tail { confZ with label := lbl }) =
      some (List.replicate 48 0) := by
    show packFields STRUCT_FMT_EX_TAIL (pack_args_tail confZ) =
      some (List.replicate 48 0)
    decide
  have henc : encode_full { confZ with label := lbl } =
      some (sPad 12 (lbl.take 12) ++ List.replicate 48 0) := by
    rw [h1, packFields_cons_s, h2]
    rfl
  have hsp : (sPad 12 (lbl.take 12)).length = 12 := sPad_length _ _
  have hlen : (sPad 12 (lbl.take 12) ++ List.replicate 48 0).length = 60 := by
    simp [hsp]
  have htake : (sPad 12 (lbl.take 12) ++ List.replicate 48 0).take
      (sizeFields STRUCT_FMT_EX) =
      sPad 12 (lbl.take 12) ++ List.replicate 48 0 := by
    apply List.take_of_length_le
    rw [hlen]
    decide
  have hu : unpackFields STRUCT_FMT_EX
      (sPad 12 (lbl.take 12) ++ List.replicate 48 0) =
      some (PackVal.bytes (sPad 12 (lbl.take 12)) :: unpackedTailZ) := by
    have hfmt : STRUCT_FMT_EX = FieldCode.s 12 :: STRUCT_FMT_EX_TAIL := rfl
    rw [hfmt, unpackFields_cons_s_exact 12 _ _ _ hsp]
    have h3 : unpackFields STRUCT_FMT_EX_TAIL (List.replicate 48 0) =
        some unpackedTailZ := by decide
    rw [h3]
    rfl
  have hcfg : configOfVals
      (PackVal.bytes (sPad 12 (lbl.take 12)) :: unpackedTailZ) =
      some { confZ with label := sPad 12 (lbl.take 12) } := rfl
  have hpad : sPad 12 (lbl.take 12) = lbl.take 12 := by
    have h12 : (lbl.take 12).length = 12 := by
      rw [List.length_take]
      omega
    simp [sPad, h12, List.take_of_length_le (le_of_eq h12)]
  rw [henc]
  show (parse_device (sPad 12 (lbl.take 12) ++ List.replicate 48 0)).map
    ArcinConfig.label = some (lbl.take 12)
  rw [parse_device, htake, hu]
  simp only [Option.some_bind, hcfg, Option.map_some]
  rw [hpad]
  rfl

theorem label_roundtrip_truncates_to_twelve_witness :
    11 < (List.replicate 14 66 : List Nat).length ∧
    (parse_device ((encode_full
        { confZ with label := List.replicate 14 66 }).getD [])).map
      ArcinConfig.label = some ((List.replicate 14 66).take 12) :=
  ⟨by decide, label_roundtrip_truncates_to_twelve _ (by decide)⟩

/-- The main-window control state with only the debounce option
enabled and every other control at its default. -/
def guiDebounceOnly : GuiState :=
  { title := [], multitap_checked := false, qe1_invert_checked := false,
    debounce_checked := true, mode_switch_checked := false,
    led_off_checked := false, ws2812b_checked := false,
    poll_rate_selection := 0, qe1_tt_selection := 0,
    input_mode_selection := 0, led_mode_selection := 0,
    debounce_ctrl_value := 2, qe1_sens_value := "1:1", keycodes := none,
    remap := [0, 0, 0, 0], rgb_config := none }

/-- The main-window state __populate_from_conf__ produces from the
all-zero configuration with flags = 0x10: only the DEBOUNCE checkbox
is set. -/
def uiDebounceOnly : MainUiState :=
  { title := List.replicate 12 0, multitap := false, qe1_invert := false,
    debounce := true, mode_switch := false, led_off := false,
    ws2812b := false, poll_rate_sel := 0, qe1_tt_sel := 0,
    input_mode_sel := 0, led_mode_sel := 0, debounce_value := 0,
    qe1_sens_index := 0, keycodes := List.replicate 16 0,
    remap := [0, 0, 0, 0],
    rgb := ⟨0, ⟨0, 0, 0⟩, 0, ⟨0, 0, 0⟩, ⟨0, 0, 0⟩, 0, 0, 0, 0⟩ }

/-- C7: for each flag constant the source defines (13 of them — bit 2
was removed), a configuration whose flags word is exactly that bit
round-trips through the codec with every other bit left zero; a GUI
state with only the DEBOUNCE option checked extracts to flags = 0x10,
encoded as the little-endian word bytes [0x10, 0, 0, 0]; and
populating the UI from flags = 0x10 reports only DEBOUNCE as true. -/
theorem single_flag_roundtrip_independence :
    (∀ f ∈ ARCIN_FLAGS,
      parse_device ((encode_full { confZ with flags := (f : Int) }).getD []) =
        some { confZ with flags := (f : Int) }) ∧
    (extract_conf guiDebounceOnly).map ArcinConfig.flags = some 16 ∧
    (((encode_full { confZ with flags := 16 }).getD []).drop 12).take 4 =
      [16, 0, 0, 0] ∧
    populate_from_conf { confZ with flags := 16 } = uiDebounceOnly := by
  refine ⟨?_, by decide, by decide, by decide⟩
  decide

theorem single_flag_roundtrip_independence_witness :
    ARCIN_CONFIG_FLAG_DEBOUNCE ∈ ARCIN_FLAGS ∧
    parse_device ((encode_full
        { confZ with flags := (ARCIN_CONFIG_FLAG_DEBOUNCE : Int) }).getD []) =
      some { confZ with flags := (ARCIN_CONFIG_FLAG_DEBOUNCE : Int) } :=
  ⟨by decide,
   single_flag_roundtrip_independence.1 ARCIN_CONFIG_FLAG_DEBOUNCE (by decide)⟩

/-- C8: each of the 15 defined sensitivity values round-trips through
the codec; decoding the unlisted raw value 5 succeeds (no exception is
raised, the stored value is preserved); but the display fallback is
broken: for qe1_sens = 5, __populate_from_conf__ computes selection
index -4 (the sens VALUE its own comment calls the 1:4 default), while
the "1:4" choice actually sits at index 3. -/
theorem sens_roundtrip_and_broken_display_fallback :
    (∀ v ∈ SENS_VALUES,
      parse_device ((encode_full { confZ with qe1_sens := v }).getD []) =
        some { confZ with qe1_sens := v }) ∧
    parse_device ((encode_full { confZ with qe1_sens := 5 }).getD []) =
      some { confZ with qe1_sens := 5 } ∧
    sensDisplayIndex 5 = -4 ∧
    SENS_KEYS.getD 3 "" = "1:4" ∧
    sensDisplayIndex 5 ≠ 3 := by
  refine ⟨?_, by decide, by decide, by decide, by decide⟩
  decide

theorem sens_roundtrip_and_broken_display_fallback_witness :
    (-16 : Int) ∈ SENS_VALUES ∧
    parse_device ((encode_full { confZ with qe1_sens := -16 }).getD []) =
      some { confZ with qe1_sens := -16 } :=
  ⟨by decide,
   sens_roundtrip_and_broken_display_fallback.1 (-16) (by decide)⟩

/-- C9: for each of the four remap slots, a stored nibble of 0 is
displayed as the identity default effector (slot i shows effector
i + 1, the DEFAULT_EFFECTOR_MAPPING entry), while any nonzero stored
value — in particular 1 through 4 — is displayed unchanged. -/
theorem remap_zero_displays_identity_default (r0 r1 r2 r3 : Int) :
    populate_ui_from_remap [r0, r1, r2, r3] =
      [if r0 = 0 then 1 else r0, if r1 = 0 then 2 else r1,
       if r2 = 0 then 3 else r2, if r3 = 0 then 4 else r3] := rfl
